import Mathlib

/-!
Shallow embedding of the video backends of the Gstreamer_Pi5 application:
the OpenCV development backend (`App_dev/app/video/opencv_backend.py`
together with `capture_worker.py`) and the GStreamer embedded backend
(`App_dev/app/video/gstreamer_backend.py`).

Timestamps and the frame-rate arithmetic are modelled over `ℚ`; Python
machine integers fit in `Int` here (no overflow is possible in the code).
External effects (codec open success, pipeline parse / state-change
results, device open results, frame-read results) are passed in as
explicit environment values, mirroring the branch structure of the code.
-/

/-- Python's `round` on a number with `.5` fractional part rounds to the
nearest even integer (banker's rounding); this models `int(round(x))`. -/
def pyRound (q : ℚ) : Int :=
  let f := ⌊q⌋
  if q - f < 1/2 then f
  else if 1/2 < q - f then f + 1
  else if f % 2 = 0 then f else f + 1

/-- Python's `x or d` for an integer `x`: `d` when `x` is zero (falsy). -/
def pyOrInt (x d : Int) : Int := if x = 0 then d else x

/-- Index of the last character of `cs` satisfying `p` (Python `str.rfind`
generalised to a predicate), or `none`. -/
def rfindIdxAux (p : Char → Bool) : List Char → Nat → Option Nat → Option Nat
  | [], _, acc => acc
  | c :: rest, i, acc => rfindIdxAux p rest (i + 1) (if p c then some i else acc)

def rfindIdx (cs : List Char) (p : Char → Bool) : Option Nat :=
  rfindIdxAux p cs 0 none

/-- `os.path.splitext(p)[1]`: the extension of the last path component,
empty when the basename consists only of leading dots (CPython
`genericpath._splitext` with both `\\` and `/` as separators). -/
def splitextExt (p : String) : String :=
  let cs := p.toList
  let sepIdx : Int :=
    match rfindIdx cs (fun c => c = '/' || c = '\\') with
    | some i => (i : Int)
    | none => -1
  match rfindIdx cs (fun c => c = '.') with
  | none => ""
  | some d =>
    if sepIdx < (d : Int) then
      if (List.range d).any (fun i => decide (sepIdx < (i : Int)) && (cs.getD i ' ' != '.')) then
        String.mk (cs.drop d)
      else ""
    else ""

/-- `os.path.splitext(p)[1].lower()` as used by `_open_writer_for_frame`. -/
def extOfLower (p : String) : String :=
  String.mk ((splitextExt p).toList.map Char.toLower)

/-- The deque `self._ts` with `maxlen=120`: appending to a full deque
evicts the oldest entry. -/
def pushTs (ts : List ℚ) (t : ℚ) : List ℚ :=
  if ts.length < 120 then ts ++ [t] else (ts.drop (ts.length + 1 - 120)) ++ [t]

/-- The canonical frame rates of the snap loop, in source order. -/
def fpsTargets : List Int := [30, 25, 24, 20, 15, 12, 10]

/-- The `for target in (...)` snap loop of `_estimate_fps`: first canonical
rate within `2.0` of `fps`, in list order. -/
def findSnap (fps : ℚ) : List Int → Option Int
  | [] => none
  | t :: rest => if |fps - (t : ℚ)| < 2 then some t else findSnap fps rest

/-- `OpenCVBackend._estimate_fps`, taking the timestamp window and the
stored `self._fps`. -/
def OpenCVBackend.estimate_fps (ts : List ℚ) (selfFps : Int) : Int :=
  if 15 ≤ ts.length then
    let dt := ts.getLastD 0 - ts.headD 0
    if 0 < dt then
      let fps : ℚ := ((ts.length : ℚ) - 1) / dt
      match findSnap fps fpsTargets with
      | some t => t
      | none => max 1 (pyRound fps)
    else max 1 selfFps
  else max 1 selfFps

/-- The `self._fps = fps if fps > 0 else 30` assignment of
`OpenCVBackend.start_preview`. -/
def requestedFps (fps : Int) : Int := if 0 < fps then fps else 30

/-- Written from the specification's words for the well-sampled case:
compute `rate`, return the first canonical rate in (30, 25, 24, 20, 15,
12, 10) within `2.0` of it, else `round(rate)` floored at `1`. -/
def claimSnapRound (rate : ℚ) : Int :=
  if |rate - 30| < 2 then 30
  else if |rate - 25| < 2 then 25
  else if |rate - 24| < 2 then 24
  else if |rate - 20| < 2 then 20
  else if |rate - 15| < 2 then 15
  else if |rate - 12| < 2 then 12
  else if |rate - 10| < 2 then 10
  else max 1 (pyRound rate)

/-- State of `OpenCVBackend`: flags, presence of the thread/worker/writer
objects, the stored record path, the stored fps and the timestamp deque. -/
structure OpenCVBackend where
  active : Bool
  recording : Bool
  deviceIndex : Int
  thread : Bool
  worker : Bool
  writer : Bool
  recordPath : Option String
  fps : Int
  ts : List ℚ
  deriving DecidableEq, Repr

/-- `OpenCVBackend.__init__(device_index=0)`. -/
def ocvInit : OpenCVBackend :=
  { active := false, recording := false, deviceIndex := 0, thread := false
    worker := false, writer := false, recordPath := none, fps := 30, ts := [] }

/-- `OpenCVBackend.start_preview`: no-op when already active, else spawn
the thread/worker pair and mark the session active. -/
def OpenCVBackend.start_preview (s : OpenCVBackend) (w h fpsArg : Int) : OpenCVBackend :=
  if s.active then s
  else
    let _ := (w, h)
    { s with fps := requestedFps fpsArg, thread := true, worker := true, active := true }

/-- `OpenCVBackend.start_recording`: returns the new state and the raised
error message, if any (the `raise` happens before any mutation). -/
def OpenCVBackend.start_recording (s : OpenCVBackend) (path : String) :
    OpenCVBackend × Option String :=
  if s.active = false then (s, some "Preview not active")
  else if s.recording then (s, none)
  else ({ s with recordPath := some path, writer := false, recording := true }, none)

/-- `OpenCVBackend.stop_recording`; `releaseOk` is the outcome of
`self._writer.release()`, swallowed by the `try/except`. -/
def OpenCVBackend.stop_recording (s : OpenCVBackend) (releaseOk : Bool) : OpenCVBackend :=
  if s.recording = false then s
  else
    let _ := releaseOk
    { s with recording := false, writer := false }

/-- `OpenCVBackend.stop_all`. -/
def OpenCVBackend.stop_all (s : OpenCVBackend) (releaseOk : Bool) : OpenCVBackend :=
  let s := s.stop_recording releaseOk
  { s with worker := false, thread := false, active := false }

/-- The candidate fourcc loop of `_open_writer_for_frame`: `env` says which
candidates open; returns whether one opened and the list of candidates
attempted, in order. -/
def OpenCVBackend.try_candidates (env : String → Bool) : List String → Bool × List String
  | [] => (false, [])
  | c :: rest =>
    if env c then (true, [c])
    else
      let r := OpenCVBackend.try_candidates env rest
      (r.1, c :: r.2)

/-- Candidate selection by extension in `_open_writer_for_frame`. -/
def OpenCVBackend.candidates_for (path : String) : List String :=
  if extOfLower path = ".mp4" then ["mp4v", "avc1"] else ["XVID", "MJPG"]

/-- `OpenCVBackend._open_writer_for_frame` (state effect plus the list of
attempted candidates; frame size and fps only parameterise the writer). -/
def OpenCVBackend.open_writer_for_frame (s : OpenCVBackend) (env : String → Bool) :
    OpenCVBackend × List String :=
  match s.recordPath with
  | none => (s, [])
  | some p =>
    let r := OpenCVBackend.try_candidates env (OpenCVBackend.candidates_for p)
    ({ s with writer := r.1 }, r.2)

/-- `OpenCVBackend._on_frame_internal`: append the timestamp, lazily open
the writer, and write when recording; the returned Bool records whether
`self._writer.write` was invoked for this frame. -/
def OpenCVBackend.on_frame_internal (s : OpenCVBackend) (t : ℚ) (env : String → Bool) :
    OpenCVBackend × Bool :=
  let s := { s with ts := pushTs s.ts t }
  let s := if s.recording && !s.writer then (s.open_writer_for_frame env).1 else s
  if s.recording && s.writer then (s, true) else (s, false)

/-- Feed a sequence of frames through `_on_frame_internal`; the Bool is
true when at least one frame was written. -/
def ocvFeed (s : OpenCVBackend) (times : List ℚ) (env : String → Bool) :
    OpenCVBackend × Bool :=
  times.foldl (fun acc t =>
    let r := acc.1.on_frame_internal t env
    (r.1, acc.2 || r.2)) (s, false)

/-! ### CaptureWorker -/

/-- Signals emitted by `CaptureWorker` (`frameReady`, `error`, `finished`). -/
inductive WSig
  | frame
  | err (msg : String)
  | finished
  deriving DecidableEq, Repr

/-- Environment of `CaptureWorker.run`: whether the DirectShow / MSMF
opens succeed, and the success of each successive `cap.read()` until the
stop flag is observed (end of list = stop requested). -/
structure WEnv where
  dshowOk : Bool
  msmfOk : Bool
  reads : List Bool
  deriving DecidableEq, Repr

/-- The `while self._running` read loop of `CaptureWorker.run`. -/
def CaptureWorker.loop : List Bool → List WSig
  | [] => []
  | ok :: rest =>
    if ok then WSig.frame :: CaptureWorker.loop rest
    else [WSig.err "Failed to read frame from camera."]

/-- `CaptureWorker.run`: try DirectShow then MSMF; on double failure emit
the fatal open error and finish without entering the loop. -/
def CaptureWorker.run (env : WEnv) : List WSig :=
  if env.dshowOk || env.msmfOk then CaptureWorker.loop env.reads ++ [WSig.finished]
  else [WSig.err "Could not open camera device.", WSig.finished]

/-- Whether a worker signal is an `error` emission. -/
def WSig.isErr : WSig → Bool
  | WSig.err _ => true
  | _ => false

/-! ### GStreamerBackend -/

/-- Observable actions of the GStreamer backend: setting a pipeline to the
NULL state (teardown), sending an end-of-stream event, and invoking the
registered error callback. -/
inductive GAction
  | setNull
  | sendEos
  | errorCb (msg : String)
  deriving DecidableEq, Repr

/-- Environment of `_start_pipeline`: the result of `Gst.parse_launch`
(`some msg` = a `GLib.Error` with that message) and whether
`set_state(PLAYING)` returns something other than FAILURE. -/
structure GEnv where
  parseResult : Option String
  playOk : Bool
  deriving DecidableEq, Repr

/-- Environment of `_send_eos_and_wait`: whether `send_event` accepts the
EOS event, and whether the EOS message is seen on the bus in time. -/
structure EosEnv where
  sendOk : Bool
  eosSeen : Bool
  deriving DecidableEq, Repr

/-- State of `GStreamerBackend`: the pipeline is represented by its
`parse_launch` description string when present. -/
structure GStreamerBackend where
  device : String
  w : Int
  h : Int
  fps : Int
  pipeline : Option String
  busThread : Bool
  stopBus : Bool
  eosEvent : Bool
  errCb : Bool
  active : Bool
  recording : Bool
  outputPath : Option String
  deriving DecidableEq, Repr

/-- `GStreamerBackend.__init__(device="/dev/video0")`. -/
def gstInit : GStreamerBackend :=
  { device := "/dev/video0", w := 1280, h := 720, fps := 30, pipeline := none
    busThread := false, stopBus := false, eosEvent := false, errCb := false
    active := false, recording := false, outputPath := none }

/-- `GStreamerBackend.on_error`: register the error callback. -/
def GStreamerBackend.on_error (s : GStreamerBackend) : GStreamerBackend :=
  { s with errCb := true }

/-- `GStreamerBackend._build_preview_pipeline`. -/
def GStreamerBackend.build_preview_pipeline (s : GStreamerBackend) : String :=
  "v4l2src device=" ++ s.device ++ " ! video/x-raw,width=" ++ toString s.w ++
    ",height=" ++ toString s.h ++ ",framerate=" ++ toString s.fps ++
    "/1 ! videoconvert ! autovideosink sync=false"

/-- `GStreamerBackend._build_record_pipeline`; `self._output_path or
"/data/output/capture.mp4"` is Python truthiness on the optional string. -/
def GStreamerBackend.build_record_pipeline (s : GStreamerBackend) : String :=
  let out :=
    match s.outputPath with
    | some p => if p = "" then "/data/output/capture.mp4" else p
    | none => "/data/output/capture.mp4"
  "v4l2src device=" ++ s.device ++ " ! video/x-raw,width=" ++ toString s.w ++
    ",height=" ++ toString s.h ++ ",framerate=" ++ toString s.fps ++
    "/1 ! videoconvert ! tee name=t t. ! queue ! autovideosink sync=false " ++
    "t. ! queue ! v4l2h264enc ! h264parse ! mp4mux faststart=true name=mux ! " ++
    "filesink location=\"" ++ out ++ "\" name=fsink"

/-- The `if self._err_cb: self._err_cb(msg)` guard. -/
def GStreamerBackend.errActs (s : GStreamerBackend) (msg : String) : List GAction :=
  if s.errCb then [GAction.errorCb msg] else []

/-- `GStreamerBackend._start_pipeline`: tear down any existing pipeline,
parse the chosen description, try to reach PLAYING; on parse failure
report and return, on state-change failure report, drop the pipeline and
clear the active flag; on success start the bus thread and set active. -/
def GStreamerBackend.start_pipeline (s : GStreamerBackend) (previewOnly : Bool)
    (env : GEnv) : GStreamerBackend × List GAction :=
  let teardown : List GAction := if s.pipeline.isSome then [GAction.setNull] else []
  let s := { s with busThread := false, pipeline := none, eosEvent := false, stopBus := false }
  let desc := if previewOnly then s.build_preview_pipeline else s.build_record_pipeline
  match env.parseResult with
  | some m => (s, teardown ++ s.errActs ("Failed to parse pipeline: " ++ m))
  | none =>
    let s := { s with pipeline := some desc }
    if env.playOk = false then
      ({ s with pipeline := none, active := false },
        teardown ++ [GAction.setNull] ++ s.errActs "Failed to set pipeline PLAYING.")
    else
      ({ s with busThread := true, active := true }, teardown)

/-- `GStreamerBackend.start_preview`. -/
def GStreamerBackend.start_preview (s : GStreamerBackend) (w h fpsArg : Int)
    (env : GEnv) : GStreamerBackend × List GAction :=
  let s := { s with w := w, h := h, fps := max 1 (pyOrInt fpsArg 30) }
  s.start_pipeline true env

/-- `GStreamerBackend.start_recording`: default the caps when inactive,
store the path, rebuild the recording pipeline and set the recording flag
(unconditionally, even when the rebuild failed). -/
def GStreamerBackend.start_recording (s : GStreamerBackend) (path : String)
    (env : GEnv) : GStreamerBackend × List GAction :=
  let s :=
    if s.active = false then
      { s with w := pyOrInt s.w 1280, h := pyOrInt s.h 720, fps := pyOrInt s.fps 30 }
    else s
  let s := { s with outputPath := some path }
  let r := s.start_pipeline false env
  ({ r.1 with recording := true }, r.2)

/-- `GStreamerBackend._send_eos_and_wait`: no-op without a pipeline; on a
rejected EOS event force NULL and return (keeping the stale reference);
otherwise wait for the bus EOS (or time out) and force NULL. -/
def GStreamerBackend.send_eos_and_wait (s : GStreamerBackend) (env : EosEnv) :
    GStreamerBackend × List GAction :=
  match s.pipeline with
  | none => (s, [])
  | some _ =>
    let s := { s with eosEvent := false }
    if env.sendOk = false then (s, [GAction.sendEos, GAction.setNull])
    else
      let s := { s with eosEvent := env.eosSeen }
      ({ s with pipeline := none }, [GAction.sendEos, GAction.setNull])

/-- `GStreamerBackend.stop_recording`: no-op when not recording, else EOS
finalisation, preview-only rebuild, and clearing of the recording state. -/
def GStreamerBackend.stop_recording (s : GStreamerBackend) (eenv : EosEnv)
    (env : GEnv) : GStreamerBackend × List GAction :=
  if s.recording = false then (s, [])
  else
    let r1 := s.send_eos_and_wait eenv
    let r2 := r1.1.start_pipeline true env
    ({ r2.1 with recording := false, outputPath := none }, r1.2 ++ r2.2)

/-- `GStreamerBackend.stop_all`. -/
def GStreamerBackend.stop_all (s : GStreamerBackend) : GStreamerBackend × List GAction :=
  let teardown : List GAction := if s.pipeline.isSome then [GAction.setNull] else []
  ({ s with stopBus := true, busThread := false, pipeline := none, active := false
            recording := false, outputPath := none, eosEvent := false }, teardown)

/-! ### Call sequences over the public API -/

/-- One public call on the OpenCV backend (with its external outcomes). -/
inductive OCVOp
  | start_preview (w h fpsArg : Int)
  | start_recording (path : String)
  | stop_recording (releaseOk : Bool)
  | stop_all (releaseOk : Bool)
  deriving DecidableEq, Repr

/-- Apply one public call to an OpenCV backend state (a raised
"Preview not active" leaves the state unchanged). -/
def ocvStep (s : OpenCVBackend) : OCVOp → OpenCVBackend
  | OCVOp.start_preview w h f => s.start_preview w h f
  | OCVOp.start_recording p => (s.start_recording p).1
  | OCVOp.stop_recording r => s.stop_recording r
  | OCVOp.stop_all r => s.stop_all r

/-- Run a call sequence from the freshly constructed OpenCV backend. -/
def ocvRun (ops : List OCVOp) : OpenCVBackend :=
  ops.foldl ocvStep ocvInit

/-- One public call on the GStreamer backend (with its external outcomes). -/
inductive GstOp
  | start_preview (w h fpsArg : Int) (env : GEnv)
  | start_recording (path : String) (env : GEnv)
  | stop_recording (eenv : EosEnv) (env : GEnv)
  | stop_all
  deriving DecidableEq, Repr

/-- Apply one public call to a GStreamer backend state. -/
def gstStep (s : GStreamerBackend) : GstOp → GStreamerBackend
  | GstOp.start_preview w h f env => (s.start_preview w h f env).1
  | GstOp.start_recording p env => (s.start_recording p env).1
  | GstOp.stop_recording ee env => (s.stop_recording ee env).1
  | GstOp.stop_all => s.stop_all.1

/-- Run a call sequence from the freshly constructed GStreamer backend. -/
def gstRun (ops : List GstOp) : GStreamerBackend :=
  ops.foldl gstStep gstInit

/-- A call whose pipeline construction (when it performs one) succeeds:
the description parses and the PLAYING transition does not fail. -/
def goodGstOp : GstOp → Bool
  | GstOp.start_preview _ _ _ env => env.parseResult.isNone && env.playOk
  | GstOp.start_recording _ env => env.parseResult.isNone && env.playOk
  | GstOp.stop_recording _ env => env.parseResult.isNone && env.playOk
  | GstOp.stop_all => true

/-- A pipeline environment in which everything succeeds. -/
def goodGEnv : GEnv := { parseResult := none, playOk := true }

/-- OpenCV backend after a successful preview start. -/
def demoPrev : OpenCVBackend := ocvInit.start_preview 1280 720 30

/-- OpenCV backend previewing and recording towards `a.mp4`. -/
def demoRec : OpenCVBackend := (demoPrev.start_recording "a.mp4").1

/-- GStreamer backend with an error callback registered and a recording
in progress towards `a.mp4` (everything succeeded). -/
def demoGstRec : GStreamerBackend :=
  (gstInit.on_error.start_recording "a.mp4" goodGEnv).1

/-- A pipeline environment whose PLAYING transition fails. -/
def badPlayEnv : GEnv := { parseResult := none, playOk := false }

/-- A pipeline environment whose description fails to parse. -/
def parseFailEnv : GEnv := { parseResult := some "no such element", playOk := true }

/-- GStreamer backend with an error callback and a running preview. -/
def demoGstPrev : GStreamerBackend :=
  (gstInit.on_error.start_preview 1280 720 30 goodGEnv).1

/-- Fifteen evenly spaced timestamps, one second apart. -/
def tsW : List ℚ := [0, 1, 2, 3, 4, 5, 6, 7, 8, 9, 10, 11, 12, 13, 14]

/-!
## Theorems
-/

/-- C2: with at least 15 samples and newest strictly greater than oldest,
`_estimate_fps` computes `rate = (count-1)/(newest-oldest)` and returns
the first canonical rate among (30, 25, 24, 20, 15, 12, 10) within `2.0`
of it, else `round(rate)` floored at 1. -/
theorem estimator_snap_matches_spec (ts : List ℚ) (f : Int)
    (h15 : 15 ≤ ts.length) (hlt : ts.headD 0 < ts.getLastD 0) :
    OpenCVBackend.estimate_fps ts f =
      claimSnapRound (((ts.length : ℚ) - 1) / (ts.getLastD 0 - ts.headD 0)) := by
  have hdt : 0 < ts.getLastD 0 - ts.headD 0 := sub_pos.mpr hlt
  unfold OpenCVBackend.estimate_fps
  rw [if_pos h15, if_pos hdt]
  generalize ((ts.length : ℚ) - 1) / (ts.getLastD 0 - ts.headD 0) = r
  simp only [findSnap, fpsTargets, claimSnapRound]
  norm_num
  split_ifs <;> rfl

/-- Witness for C2 on fifteen samples spaced one second apart. -/
theorem estimator_snap_matches_spec_witness :
    15 ≤ tsW.length ∧ tsW.headD 0 < tsW.getLastD 0 ∧
      OpenCVBackend.estimate_fps tsW 30 =
        claimSnapRound (((tsW.length : ℚ) - 1) / (tsW.getLastD 0 - tsW.headD 0)) :=
  ⟨by decide, by decide, estimator_snap_matches_spec tsW 30 (by decide) (by decide)⟩

/-- C3: with fewer than 15 samples, or a window whose newest timestamp
equals its oldest, `_estimate_fps` returns the requested frame rate (30
by default when none was requested, via `fps if fps > 0 else 30`). -/
theorem estimator_fallback_requested (ts : List ℚ) (r : Int)
    (h : ts.length < 15 ∨ ts.getLastD 0 = ts.headD 0) :
    OpenCVBackend.estimate_fps ts (requestedFps r) = requestedFps r := by
  have h1 : 1 ≤ requestedFps r := by unfold requestedFps; split_ifs <;> omega
  unfold OpenCVBackend.estimate_fps
  by_cases h15 : 15 ≤ ts.length
  · rcases h with h | h
    · omega
    · rw [if_pos h15, if_neg (by rw [h]; simp)]
      omega
  · rw [if_neg h15]
    omega

/-- Witness for C3: the empty window with no requested rate yields the
30 default. -/
theorem estimator_fallback_requested_witness :
    ([] : List ℚ).length < 15 ∧
      OpenCVBackend.estimate_fps [] (requestedFps 0) = requestedFps 0 :=
  ⟨by decide, estimator_fallback_requested [] 0 (Or.inl (by decide))⟩

/-- Helper: a successful `_start_pipeline` (description parses, PLAYING
succeeds) leaves the backend active and the recording flag untouched. -/
theorem start_pipeline_success (s : GStreamerBackend) (po : Bool) (env : GEnv)
    (h1 : env.parseResult = none) (h2 : env.playOk = true) :
    (s.start_pipeline po env).1.active = true ∧
    (s.start_pipeline po env).1.recording = s.recording := by
  simp [GStreamerBackend.start_pipeline, h1, h2]

/-- Helper: every OpenCV-backend public call preserves the session
invariant `recording → active`. -/
theorem ocvStep_preserves_inv (s : OpenCVBackend) (op : OCVOp)
    (h : s.recording = true → s.active = true) :
    (ocvStep s op).recording = true → (ocvStep s op).active = true := by
  cases op <;>
    simp only [ocvStep, OpenCVBackend.start_preview, OpenCVBackend.start_recording,
      OpenCVBackend.stop_recording, OpenCVBackend.stop_all] <;>
    split_ifs <;> simp_all

/-- Helper: a GStreamer-backend public call whose pipeline constructions
succeed preserves the session invariant `recording → active`. -/
theorem gstStep_preserves_inv (s : GStreamerBackend) (op : GstOp)
    (hgood : goodGstOp op = true)
    (h : s.recording = true → s.active = true) :
    (gstStep s op).recording = true → (gstStep s op).active = true := by
  cases op with
  | start_preview w hh f env =>
    simp only [goodGstOp, Bool.and_eq_true, Option.isNone_iff_eq_none] at hgood
    intro _
    simpa [gstStep, GStreamerBackend.start_preview] using
      (start_pipeline_success _ true env hgood.1 hgood.2).1
  | start_recording p env =>
    simp only [goodGstOp, Bool.and_eq_true, Option.isNone_iff_eq_none] at hgood
    intro _
    simpa [gstStep, GStreamerBackend.start_recording] using
      (start_pipeline_success _ false env hgood.1 hgood.2).1
  | stop_recording eenv env =>
    simp only [gstStep, GStreamerBackend.stop_recording]
    split_ifs with hr
    · exact h
    · simp
  | stop_all =>
    simp [gstStep, GStreamerBackend.stop_all]

/-- Helper: a fold preserves any property preserved by each step. -/
theorem foldl_preserves {σ τ : Type} (P : σ → Prop) (step : σ → τ → σ)
    (hstep : ∀ s t, P s → P (step s t)) :
    ∀ (l : List τ) (s : σ), P s → P (l.foldl step s)
  | [], _, h => h
  | t :: rest, s, h => foldl_preserves P step hstep rest (step s t) (hstep s t h)

/-- C1 (amended): states reachable by public calls satisfy
`recording = true → active = true` — unconditionally on the OpenCV
backend, and on the GStreamer backend provided every pipeline
construction performed by the calls succeeds. (Without that proviso the
invariant fails on the GStreamer backend: see
`gst_recording_without_active`.) -/
theorem recording_implies_active (ops : List OCVOp) (gops : List GstOp)
    (hgood : ∀ op ∈ gops, goodGstOp op = true) :
    ((ocvRun ops).recording = true → (ocvRun ops).active = true) ∧
    ((gstRun gops).recording = true → (gstRun gops).active = true) := by
  constructor
  · exact foldl_preserves (fun s => s.recording = true → s.active = true) ocvStep
      (fun s op => ocvStep_preserves_inv s op) ops ocvInit (by simp [ocvInit])
  · have : ∀ (l : List GstOp) (s : GStreamerBackend),
        (∀ op ∈ l, goodGstOp op = true) →
        (s.recording = true → s.active = true) →
        ((l.foldl gstStep s).recording = true → (l.foldl gstStep s).active = true) := by
      intro l
      induction l with
      | nil => intro s _ h; exact h
      | cons op rest ih =>
        intro s hg h
        exact ih (gstStep s op) (fun o ho => hg o (List.mem_cons_of_mem _ ho))
          (gstStep_preserves_inv s op (hg op (List.mem_cons_self _ _)) h)
    exact this gops gstInit hgood (by simp [gstInit])

/-- Witness for C1 on a preview-then-record OpenCV trace and a
single successful GStreamer recording call. -/
theorem recording_implies_active_witness :
    (∀ op ∈ [GstOp.start_recording "b.mp4" goodGEnv], goodGstOp op = true) ∧
    ((ocvRun [OCVOp.start_preview 1280 720 30, OCVOp.start_recording "a.mp4"]).recording = true →
      (ocvRun [OCVOp.start_preview 1280 720 30, OCVOp.start_recording "a.mp4"]).active = true) ∧
    ((gstRun [GstOp.start_recording "b.mp4" goodGEnv]).recording = true →
      (gstRun [GstOp.start_recording "b.mp4" goodGEnv]).active = true) :=
  ⟨by decide,
   (recording_implies_active [OCVOp.start_preview 1280 720 30, OCVOp.start_recording "a.mp4"]
      [GstOp.start_recording "b.mp4" goodGEnv] (by decide)).1,
   (recording_implies_active [OCVOp.start_preview 1280 720 30, OCVOp.start_recording "a.mp4"]
      [GstOp.start_recording "b.mp4" goodGEnv] (by decide)).2⟩

/-- C1 counterexample: one `start_recording` call on the fresh GStreamer
backend whose PLAYING transition fails reaches a state with
`recording = true` and `active = false`. -/
theorem gst_recording_without_active :
    (gstRun [GstOp.start_recording "out.mp4" badPlayEnv]).recording = true ∧
    (gstRun [GstOp.start_recording "out.mp4" badPlayEnv]).active = false := by decide

/-- C4: `start_recording` on an inactive OpenCV backend raises
"Preview not active" and leaves the state unchanged — no writer is
created, the recording flag and stored path are untouched. -/
theorem start_recording_inactive_fails (s : OpenCVBackend) (p : String)
    (h : s.active = false) :
    s.start_recording p = (s, some "Preview not active") ∧
    (s.start_recording p).1.writer = s.writer ∧
    (s.start_recording p).1.recording = s.recording ∧
    (s.start_recording p).1.recordPath = s.recordPath := by
  simp [OpenCVBackend.start_recording, h]

/-- Witness for C4 on the freshly constructed backend. -/
theorem start_recording_inactive_fails_witness :
    ocvInit.active = false ∧
      ocvInit.start_recording "a.mp4" = (ocvInit, some "Preview not active") :=
  ⟨by decide, (start_recording_inactive_fails ocvInit "a.mp4" (by decide)).1⟩

/-- Helper: one frame received while recording towards an `.mp4` path
with both codec candidates failing is not written, and the session
fields that feed the next frame are unchanged. -/
theorem ocv_frame_drop_step (s : OpenCVBackend) (p : String) (env : String → Bool) (t : ℚ)
    (hrec : s.recording = true) (hw : s.writer = false) (hp : s.recordPath = some p)
    (hext : extOfLower p = ".mp4")
    (e1 : env "mp4v" = false) (e2 : env "avc1" = false) :
    (s.on_frame_internal t env).2 = false ∧
    (s.on_frame_internal t env).1.recording = true ∧
    (s.on_frame_internal t env).1.writer = false ∧
    (s.on_frame_internal t env).1.recordPath = some p ∧
    (s.on_frame_internal t env).1.active = s.active := by
  simp [OpenCVBackend.on_frame_internal, OpenCVBackend.open_writer_for_frame,
    OpenCVBackend.candidates_for, OpenCVBackend.try_candidates, hrec, hw, hp, hext, e1, e2]

/-- Helper: under the same failing environment, no frame of any sequence
is ever written, by induction over the frame sequence. -/
theorem ocv_frames_dropped (p : String) (env : String → Bool)
    (hext : extOfLower p = ".mp4")
    (e1 : env "mp4v" = false) (e2 : env "avc1" = false) :
    ∀ (times : List ℚ) (s : OpenCVBackend) (b : Bool),
      s.recording = true → s.writer = false → s.recordPath = some p →
      (times.foldl (fun acc t =>
          let r := acc.1.on_frame_internal t env
          (r.1, acc.2 || r.2)) (s, b)).2 = b ∧
      (times.foldl (fun acc t =>
          let r := acc.1.on_frame_internal t env
          (r.1, acc.2 || r.2)) (s, b)).1.recording = true ∧
      (times.foldl (fun acc t =>
          let r := acc.1.on_frame_internal t env
          (r.1, acc.2 || r.2)) (s, b)).1.writer = false ∧
      (times.foldl (fun acc t =>
          let r := acc.1.on_frame_internal t env
          (r.1, acc.2 || r.2)) (s, b)).1.recordPath = some p ∧
      (times.foldl (fun acc t =>
          let r := acc.1.on_frame_internal t env
          (r.1, acc.2 || r.2)) (s, b)).1.active = s.active := by
  intro times
  induction times with
  | nil => intro s b h1 h2 h3; simp [h1, h2, h3]
  | cons t rest ih =>
    intro s b h1 h2 h3
    have hstep := ocv_frame_drop_step s p env t h1 h2 h3 hext e1 e2
    have := ih (s.on_frame_internal t env).1 (b || (s.on_frame_internal t env).2)
      hstep.2.1 hstep.2.2.1 hstep.2.2.2.1
    simp only [List.foldl_cons]
    rw [hstep.1] at this ⊢
    simp only [Bool.or_false] at this ⊢
    exact ⟨this.1, this.2.1, this.2.2.1, this.2.2.2.1,
      this.2.2.2.2.trans hstep.2.2.2.2⟩

/-- C5: for an `.mp4` output path the writer-open attempt tries
`mp4v` then `avc1`, attempting the second exactly when the first fails;
when both fail, the recording flag stays true, the writer stays unset,
and every subsequent frame is dropped unwritten while the active flag
(preview) is untouched. -/
theorem mp4_writer_fallback (s : OpenCVBackend) (p : String) (env : String → Bool)
    (hrec : s.recording = true) (hw : s.writer = false) (hp : s.recordPath = some p)
    (hext : extOfLower p = ".mp4") :
    (OpenCVBackend.try_candidates env (OpenCVBackend.candidates_for p)).2
        = (if env "mp4v" then ["mp4v"] else ["mp4v", "avc1"]) ∧
    (env "mp4v" = false → env "avc1" = false → ∀ times : List ℚ,
      (ocvFeed s times env).2 = false ∧
      (ocvFeed s times env).1.recording = true ∧
      (ocvFeed s times env).1.writer = false ∧
      (ocvFeed s times env).1.recordPath = some p ∧
      (ocvFeed s times env).1.active = s.active) := by
  constructor
  · simp only [OpenCVBackend.candidates_for, hext, if_pos]
    by_cases h1 : env "mp4v" <;> by_cases h2 : env "avc1" <;>
      simp [OpenCVBackend.try_candidates, h1, h2]
  · intro e1 e2 times
    exact ocv_frames_dropped p env hext e1 e2 times s false hrec hw hp

/-- Witness for C5 on a live recording towards `a.mp4` with both codec
candidates failing, fed two frames. -/
theorem mp4_writer_fallback_witness :
    (demoRec.recording = true ∧ demoRec.writer = false ∧
      demoRec.recordPath = some "a.mp4" ∧ extOfLower "a.mp4" = ".mp4") ∧
    (OpenCVBackend.try_candidates (fun _ => false)
        (OpenCVBackend.candidates_for "a.mp4")).2 = ["mp4v", "avc1"] ∧
    (ocvFeed demoRec [0, 1] (fun _ => false)).2 = false ∧
    (ocvFeed demoRec [0, 1] (fun _ => false)).1.writer = false ∧
    (ocvFeed demoRec [0, 1] (fun _ => false)).1.recording = true := by
  have h := mp4_writer_fallback demoRec "a.mp4" (fun _ => false)
    (by decide) (by decide) (by decide) (by decide)
  have h2 := h.2 rfl rfl [0, 1]
  exact ⟨⟨by decide, by decide, by decide, by decide⟩,
    by simpa using h.1, h2.1, h2.2.2.1, h2.2.1⟩

/-- C6 (amended): `stop_recording` is a no-op when not recording; when
recording it clears the recording flag and the writer, leaving all other
fields — including the stored output path — unchanged. (The source does
not clear `_record_path`: see `stop_recording_keeps_path`.) -/
theorem stop_recording_effect (s : OpenCVBackend) (rOk : Bool) :
    (s.recording = false → s.stop_recording rOk = s) ∧
    (s.recording = true →
      s.stop_recording rOk = { s with recording := false, writer := false }) := by
  constructor <;> intro h <;> simp [OpenCVBackend.stop_recording, h]

/-- Witness for C6 on a live recording and on the fresh backend. -/
theorem stop_recording_effect_witness :
    (demoRec.recording = true ∧
      demoRec.stop_recording true = { demoRec with recording := false, writer := false }) ∧
    (ocvInit.recording = false ∧ ocvInit.stop_recording false = ocvInit) :=
  ⟨⟨by decide, (stop_recording_effect demoRec true).2 (by decide)⟩,
   ⟨by decide, (stop_recording_effect ocvInit false).1 (by decide)⟩⟩

/-- C6 counterexample: stopping a recording towards `a.mp4` leaves the
stored output path set, contradicting "clears ... the stored output
path". -/
theorem stop_recording_keeps_path :
    demoRec.recording = true ∧
      (demoRec.stop_recording true).recordPath = some "a.mp4" ∧
      (demoRec.stop_recording true).recordPath ≠ none := by decide

/-- C7 (amended): when both capture APIs fail to open the device the
worker reports exactly one error ("Could not open camera device.") and
finishes, but the backend's active flag — set unconditionally by
`start_preview` — remains true, not false. -/
theorem preview_open_failure_reported (env : WEnv) (s : OpenCVBackend) (w h f : Int)
    (h1 : env.dshowOk = false) (h2 : env.msmfOk = false) (hs : s.active = false) :
    (CaptureWorker.run env).filter WSig.isErr
        = [WSig.err "Could not open camera device."] ∧
    ((CaptureWorker.run env).filter WSig.isErr).length = 1 ∧
    (s.start_preview w h f).active = true := by
  simp [CaptureWorker.run, h1, h2, OpenCVBackend.start_preview, hs, WSig.isErr,
    List.filter]

/-- Witness for C7 on the fresh backend with both opens failing. -/
theorem preview_open_failure_reported_witness :
    ((CaptureWorker.run ⟨false, false, []⟩).filter WSig.isErr
        = [WSig.err "Could not open camera device."]) ∧
      (ocvInit.start_preview 1280 720 30).active = true :=
  ⟨(preview_open_failure_reported ⟨false, false, []⟩ ocvInit 1280 720 30
      (by decide) (by decide) (by decide)).1,
   (preview_open_failure_reported ⟨false, false, []⟩ ocvInit 1280 720 30
      (by decide) (by decide) (by decide)).2.2⟩

/-- C7 counterexample: after a preview attempt whose device opens both
fail, the error is emitted once but the session's active flag is true,
contradicting "the session remains inactive". -/
theorem preview_open_failure_leaves_active :
    (CaptureWorker.run ⟨false, false, []⟩).filter WSig.isErr
        = [WSig.err "Could not open camera device."] ∧
      demoPrev.active = true := by decide

/-- C8 (amended): on either `start_preview` or `start_recording`, a parse
failure or a PLAYING failure reports through the registered error
callback and leaves no pipeline attached; a PLAYING failure clears the
active flag, but a parse failure leaves the active flag at its previous
value. (The claim's "left inactive" fails for parse failures from an
active state: see `parse_failure_leaves_active`.) -/
theorem pipeline_failure_reporting (s : GStreamerBackend) (w h f : Int) (p m : String)
    (envP envS : GEnv) (hcb : s.errCb = true)
    (hpm : envP.parseResult = some m)
    (hs1 : envS.parseResult = none) (hs2 : envS.playOk = false) :
    ((s.start_preview w h f envP).1.pipeline = none ∧
      (s.start_preview w h f envP).1.active = s.active ∧
      GAction.errorCb ("Failed to parse pipeline: " ++ m) ∈ (s.start_preview w h f envP).2) ∧
    ((s.start_recording p envP).1.pipeline = none ∧
      (s.start_recording p envP).1.active = s.active ∧
      GAction.errorCb ("Failed to parse pipeline: " ++ m) ∈ (s.start_recording p envP).2) ∧
    ((s.start_preview w h f envS).1.pipeline = none ∧
      (s.start_preview w h f envS).1.active = false ∧
      GAction.errorCb "Failed to set pipeline PLAYING." ∈ (s.start_preview w h f envS).2) ∧
    ((s.start_recording p envS).1.pipeline = none ∧
      (s.start_recording p envS).1.active = false ∧
      GAction.errorCb "Failed to set pipeline PLAYING." ∈ (s.start_recording p envS).2) := by
  refine ⟨?_, ?_, ?_, ?_⟩ <;>
    simp [GStreamerBackend.start_preview, GStreamerBackend.start_recording,
      GStreamerBackend.start_pipeline, GStreamerBackend.errActs, hcb, hpm, hs1, hs2] <;>
    split_ifs <;> simp_all

/-- Witness for C8 on the fresh backend with a registered callback. -/
theorem pipeline_failure_reporting_witness :
    gstInit.on_error.errCb = true ∧
    ((gstInit.on_error.start_preview 1280 720 30 parseFailEnv).1.pipeline = none ∧
      (gstInit.on_error.start_preview 1280 720 30 parseFailEnv).1.active
        = gstInit.on_error.active ∧
      GAction.errorCb ("Failed to parse pipeline: " ++ "no such element")
        ∈ (gstInit.on_error.start_preview 1280 720 30 parseFailEnv).2) ∧
    ((gstInit.on_error.start_recording "o.mp4" badPlayEnv).1.pipeline = none ∧
      (gstInit.on_error.start_recording "o.mp4" badPlayEnv).1.active = false ∧
      GAction.errorCb "Failed to set pipeline PLAYING."
        ∈ (gstInit.on_error.start_recording "o.mp4" badPlayEnv).2) :=
  ⟨by decide,
   (pipeline_failure_reporting gstInit.on_error 1280 720 30 "o.mp4" "no such element"
      parseFailEnv badPlayEnv (by decide) (by decide) (by decide) (by decide)).1,
   (pipeline_failure_reporting gstInit.on_error 1280 720 30 "o.mp4" "no such element"
      parseFailEnv badPlayEnv (by decide) (by decide) (by decide) (by decide)).2.2.2⟩

/-- C8 counterexample: from a running preview, a `start_recording` whose
description fails to parse reports the error and detaches the pipeline,
yet the active flag stays true — the backend is not "left inactive". -/
theorem parse_failure_leaves_active :
    demoGstPrev.active = true ∧
    (demoGstPrev.start_recording "o.mp4" parseFailEnv).1.active = true ∧
    (demoGstPrev.start_recording "o.mp4" parseFailEnv).1.pipeline = none ∧
    GAction.errorCb "Failed to parse pipeline: no such element"
      ∈ (demoGstPrev.start_recording "o.mp4" parseFailEnv).2 := by decide

/-- C9 (amended): `stop_all` on either backend, from any state, raises
no error, is idempotent, and clears the active and recording flags, the
worker/thread (OpenCV) and the pipeline/bus thread (GStreamer); the
GStreamer backend also clears its output path, but the OpenCV backend
keeps its stored record path (see `stop_all_keeps_record_path`). -/
theorem stop_all_idempotent_idle (s : OpenCVBackend) (rOk : Bool) (g : GStreamerBackend) :
    (s.stop_all rOk).active = false ∧ (s.stop_all rOk).recording = false ∧
    (s.stop_all rOk).worker = false ∧ (s.stop_all rOk).thread = false ∧
    (s.stop_all rOk).stop_all rOk = s.stop_all rOk ∧
    g.stop_all.1.active = false ∧ g.stop_all.1.recording = false ∧
    g.stop_all.1.pipeline = none ∧ g.stop_all.1.busThread = false ∧
    g.stop_all.1.outputPath = none ∧
    g.stop_all.1.stop_all.1 = g.stop_all.1 ∧
    (∀ m : String, GAction.errorCb m ∉ g.stop_all.2) := by
  cases s
  cases g
  refine ⟨?_, ?_, ?_, ?_, ?_, ?_, ?_, ?_, ?_, ?_, ?_, ?_⟩ <;>
    simp [OpenCVBackend.stop_all, OpenCVBackend.stop_recording, GStreamerBackend.stop_all] <;>
    split_ifs <;> simp_all

/-- C9 counterexample: `stop_all` on an OpenCV backend recording towards
`a.mp4` leaves the stored output path set, contradicting "no output
path" in the claimed Idle state. -/
theorem stop_all_keeps_record_path :
    (demoRec.stop_all true).recordPath = some "a.mp4" ∧
      (demoRec.stop_all true).recordPath ≠ none ∧
      (demoRec.stop_all true).active = false := by decide

/-- C10: `start_recording` while a recording is in progress tears the
current pipeline down (a NULL transition with no end-of-stream event, so
the open file gets no trailer) and installs a freshly built recording
pipeline targeting the new path, with the recording flag still true. -/
theorem start_recording_while_recording_rebuilds (s : GStreamerBackend) (p : String)
    (env : GEnv) (hrec : s.recording = true) (hact : s.active = true)
    (hpipe : s.pipeline.isSome = true)
    (h1 : env.parseResult = none) (h2 : env.playOk = true) :
    GAction.sendEos ∉ (s.start_recording p env).2 ∧
    GAction.setNull ∈ (s.start_recording p env).2 ∧
    (s.start_recording p env).1.pipeline =
      some (GStreamerBackend.build_record_pipeline { s with outputPath := some p }) ∧
    (s.start_recording p env).1.outputPath = some p ∧
    (s.start_recording p env).1.recording = true ∧
    (s.start_recording p env).1.active = true := by
  cases s
  simp_all [GStreamerBackend.start_recording, GStreamerBackend.start_pipeline,
    GStreamerBackend.build_record_pipeline, GStreamerBackend.errActs, h1, h2, hpipe]

/-- Witness for C10: re-targeting a live recording from `a.mp4` to
`b.mp4`. -/
theorem start_recording_while_recording_rebuilds_witness :
    (demoGstRec.recording = true ∧ demoGstRec.active = true ∧
      demoGstRec.pipeline.isSome = true) ∧
    GAction.sendEos ∉ (demoGstRec.start_recording "b.mp4" goodGEnv).2 ∧
    GAction.setNull ∈ (demoGstRec.start_recording "b.mp4" goodGEnv).2 ∧
    (demoGstRec.start_recording "b.mp4" goodGEnv).1.pipeline =
      some (GStreamerBackend.build_record_pipeline { demoGstRec with outputPath := some "b.mp4" }) ∧
    (demoGstRec.start_recording "b.mp4" goodGEnv).1.recording = true :=
  ⟨⟨by decide, by decide, by decide⟩,
   (start_recording_while_recording_rebuilds demoGstRec "b.mp4" goodGEnv
      (by decide) (by decide) (by decide) (by decide) (by decide)).1,
   (start_recording_while_recording_rebuilds demoGstRec "b.mp4" goodGEnv
      (by decide) (by decide) (by decide) (by decide) (by decide)).2.1,
   (start_recording_while_recording_rebuilds demoGstRec "b.mp4" goodGEnv
      (by decide) (by decide) (by decide) (by decide) (by decide)).2.2.1,
   (start_recording_while_recording_rebuilds demoGstRec "b.mp4" goodGEnv
      (by decide) (by decide) (by decide) (by decide) (by decide)).2.2.2.2.1⟩
